import Mathlib

/-!
Shallow embedding of the ShopDB API core
(`src/lambdas/api/index.js` and `src/app/scripts/dev-api-server.js`).

The relational store held in the SQLite blob is modelled as lists of rows;
JavaScript numbers are modelled as exact rationals (`ℚ`); SQLite row ids as
`Nat`.  The order-creation timestamp is modelled as an abstract linearly
ordered instant (`Nat`), standing for the `TEXT` ISO timestamp whose
lexicographic order coincides with chronological order.
-/

namespace ShopDB

/-- A JavaScript value as it can appear for `customerId` in a parsed JSON
request body.  `truthy` mirrors JavaScript's `!v` coercion. -/
inductive JsVal where
  | num (q : ℚ)
  | str (s : String)
  | boolv (b : Bool)
  | nullv
  | undef
deriving DecidableEq

/-- JavaScript truthiness: `0`, `""`, `false`, `null`, `undefined` are falsy. -/
def JsVal.truthy : JsVal → Bool
  | .num q => decide (q ≠ 0)
  | .str s => decide (s ≠ "")
  | .boolv b => b
  | .nullv => false
  | .undef => false

/-- Row of the `customers` table (columns used by this core). -/
structure Customer where
  customer_id : ℚ
  full_name : String
  email : String
  city : String
  state : String
  is_active : Bool
deriving DecidableEq

/-- Row of the `products` table (columns used by this core). -/
structure Product where
  product_id : Int
  sku : String
  product_name : String
  category : String
  price : ℚ
  is_active : Bool
deriving DecidableEq

/-- Row of the `orders` table.  `customer_id` keeps the JavaScript value that
was bound into the `INSERT` (seed rows use `JsVal.num`). -/
structure OrderRow where
  order_id : Nat
  customer_id : JsVal
  order_datetime : Nat
  payment_method : String
  device_type : String
  ip_country : String
  promo_used : Bool
  order_subtotal : ℚ
  shipping_fee : ℚ
  tax_amount : ℚ
  order_total : ℚ
  risk_score : ℚ
  is_fraud : Bool
deriving DecidableEq

/-- Row of the `order_items` table. -/
structure OrderItem where
  order_id : Nat
  product_id : Int
  quantity : ℚ
  unit_price : ℚ
  line_total : ℚ
deriving DecidableEq

/-- Row of the `order_predictions` table (written by the external scoring job). -/
structure Prediction where
  order_id : Nat
  late_delivery_probability : ℚ
  predicted_late_delivery : Bool
  prediction_timestamp : String
deriving DecidableEq

/-- The relational store decoded from the durable blob.  `nextOrderId` models
the SQLite rowid counter consulted by `last_insert_rowid()`. -/
structure Store where
  customers : List Customer
  products : List Product
  orders : List OrderRow
  order_items : List OrderItem
  predictions : List Prediction
  nextOrderId : Nat
deriving DecidableEq

/-- JavaScript `Math.round`: round half toward positive infinity. -/
def jsRound (x : ℚ) : ℤ := ⌊x + 1/2⌋

/-- `Math.round(x * 100) / 100`, the 2-decimal rounding used for money. -/
def round2 (x : ℚ) : ℚ := (jsRound (x * 100) : ℚ) / 100

/-- Leading decimal digits of a character list, as a number; `none` when the
list does not start with a digit (JavaScript `parseInt` yields `NaN`). -/
def leadingDigits (cs : List Char) : Option Nat :=
  let ds := cs.takeWhile Char.isDigit
  if ds = [] then none
  else some (ds.foldl (fun a c => a * 10 + (c.toNat - 48)) 0)

/-- JavaScript `parseInt(s, 10)`: skip leading spaces, optional sign, longest
digit run; `none` models `NaN`. -/
def parseIntJs (s : String) : Option Int :=
  match s.toList.dropWhile (fun c => c = ' ') with
  | '-' :: rest => (leadingDigits rest).map (fun n => -(n : Int))
  | '+' :: rest => (leadingDigits rest).map (fun n => (n : Int))
  | cs => (leadingDigits cs).map (fun n => (n : Int))

/-- Projection returned by `GET /customers`. -/
structure CustomerRow where
  customer_id : ℚ
  full_name : String
  email : String
  city : String
  state : String
deriving DecidableEq

/-- Projection returned by `GET /products`. -/
structure ProductRow where
  product_id : Int
  sku : String
  product_name : String
  category : String
  price : ℚ
deriving DecidableEq

/-- Projection returned by `GET /orders`. -/
structure OrderSummary where
  order_id : Nat
  order_datetime : Nat
  order_total : ℚ
  order_subtotal : ℚ
deriving DecidableEq

/-- Joined projection returned by `GET /priority-queue`. -/
structure QueueRow where
  order_id : Nat
  late_delivery_probability : ℚ
  predicted_late_delivery : Bool
  prediction_timestamp : String
  customer_id : JsVal
  order_datetime : Nat
  order_total : ℚ
  full_name : String
deriving DecidableEq

/-- `SELECT ... FROM customers WHERE is_active = 1 ORDER BY full_name`. -/
def getCustomers (s : Store) : List CustomerRow :=
  (((s.customers.filter (fun c => c.is_active)).insertionSort
      (fun a b => a.full_name ≤ b.full_name)).map
    (fun c => ⟨c.customer_id, c.full_name, c.email, c.city, c.state⟩))

/-- `SELECT ... FROM products WHERE is_active = 1 ORDER BY product_name`. -/
def getProducts (s : Store) : List ProductRow :=
  (((s.products.filter (fun p => p.is_active)).insertionSort
      (fun a b => a.product_name ≤ b.product_name)).map
    (fun p => ⟨p.product_id, p.sku, p.product_name, p.category, p.price⟩))

/-- `SELECT ... FROM orders WHERE customer_id = ? ORDER BY order_datetime DESC`.
The bound parameter is `parseInt(customerId, 10)`; binding `NaN` stores SQL
`NULL`, which matches no row, hence the `none` case selects nothing. -/
def getOrders (s : Store) (cid : Option Int) : List OrderSummary :=
  (((s.orders.filter (fun o =>
        match cid with
        | some n => decide (o.customer_id = JsVal.num (n : ℚ))
        | none => false)).insertionSort
      (fun a b => b.order_datetime ≤ a.order_datetime)).map
    (fun o => ⟨o.order_id, o.order_datetime, o.order_total, o.order_subtotal⟩))

/-- The three-way `JOIN` of `order_predictions`, `orders`, `customers`. -/
def queueJoin (s : Store) : List QueueRow :=
  s.predictions.flatMap (fun p =>
    (s.orders.filter (fun o => decide (o.order_id = p.order_id))).flatMap (fun o =>
      (s.customers.filter (fun c =>
          decide (o.customer_id = JsVal.num c.customer_id))).map (fun c =>
        ⟨p.order_id, p.late_delivery_probability, p.predicted_late_delivery,
         p.prediction_timestamp, o.customer_id, o.order_datetime, o.order_total,
         c.full_name⟩)))

/-- `GET /priority-queue`: join, `ORDER BY late_delivery_probability DESC`,
`LIMIT 50`.  (The `CREATE TABLE IF NOT EXISTS` step is modelled by the
predictions list simply being empty when the table was never populated.) -/
def getPriorityQueue (s : Store) : List QueueRow :=
  ((queueJoin s).insertionSort
    (fun a b => b.late_delivery_probability ≤ a.late_delivery_probability)).take 50

/-- Does a `products` row with this id exist (referential target of the
`order_items.product_id` foreign key)? -/
def productExists (s : Store) (pid : Int) : Bool :=
  s.products.any (fun p => decide (p.product_id = pid))

/-- Does a `customers` row with this id exist (referential target of the
`orders.customer_id` foreign key)? -/
def customerExists (s : Store) (cust : JsVal) : Bool :=
  s.customers.any (fun c => decide (JsVal.num c.customer_id = cust))

/-- One input line item of `POST /orders`. -/
structure Item where
  productId : Int
  quantity : ℚ
  unitPrice : ℚ
deriving DecidableEq

/-- Transaction failure: a SQLite `FOREIGN KEY constraint failed` error raised
by the order insert or by a line-item insert. -/
inductive TxError where
  | orderFkViolation
  | itemFkViolation
deriving DecidableEq

/-- `err.message` surfaced by the catch-all 500 handler. -/
def txMessage : TxError → String
  | .orderFkViolation => "FOREIGN KEY constraint failed"
  | .itemFkViolation => "FOREIGN KEY constraint failed"

/-- The line-item insert loop.  `fk` states whether foreign keys are enforced
(`PRAGMA foreign_keys = ON` in the dev server; sql.js in the Lambda leaves it
off).  An insert fails exactly when enforcement is on and the referenced
product row is missing. -/
def insertItems (fk : Bool) (oid : Nat) : Store → List Item → Except TxError Store
  | s, [] => Except.ok s
  | s, it :: rest =>
    if fk && !(productExists s it.productId) then Except.error TxError.itemFkViolation
    else
      insertItems fk oid
        { s with order_items :=
            s.order_items ++
              [⟨oid, it.productId, it.quantity, it.unitPrice,
                it.quantity * it.unitPrice⟩] }
        rest

/-- Sum of `quantity * unitPrice` accumulated by the `for` loop. -/
def sumItems (items : List Item) : ℚ :=
  items.foldl (fun acc it => acc + it.quantity * it.unitPrice) 0

/-- The order row inserted by the transaction. -/
def mkOrderRow (oid : Nat) (cust : JsVal) (now : Nat) (items : List Item) : OrderRow :=
  let orderSubtotal := sumItems items
  let shippingFee : ℚ := if orderSubtotal > 100 then 0 else 999/100
  let taxAmount := round2 (orderSubtotal * (8/100))
  let orderTotal := round2 (orderSubtotal + shippingFee + taxAmount)
  ⟨oid, cust, now, "card", "desktop", "US", false,
   orderSubtotal, shippingFee, taxAmount, orderTotal, 0, false⟩

/-- The `postOrder` transaction (`BEGIN` … `COMMIT` / `ROLLBACK`): insert the
order row, read `last_insert_rowid()`, insert one item row per input item.
On any failure the whole unit is rolled back, so the pre-transaction store is
returned unchanged alongside the error. -/
def postOrderDb (fk : Bool) (now : Nat) (cust : JsVal) (items : List Item)
    (s : Store) : Store × Except TxError Nat :=
  if fk && !(customerExists s cust) then (s, Except.error TxError.orderFkViolation)
  else
    match insertItems fk s.nextOrderId
        { s with orders := s.orders ++ [mkOrderRow s.nextOrderId cust now items],
                 nextOrderId := s.nextOrderId + 1 } items with
    | Except.ok s2 => (s2, Except.ok s.nextOrderId)
    | Except.error e => (s, Except.error e)

/-- HTTP method of an incoming event (`other` covers everything else). -/
inductive Method where
  | GET
  | POST
  | OPTIONS
  | other
deriving DecidableEq

/-- Parsed JSON body of `POST /orders`.  `items = none` models a missing or
non-array `items` field (`!items || !Array.isArray(items)`). -/
structure PostBody where
  customerId : JsVal
  items : Option (List Item)
deriving DecidableEq

/-- An incoming request after path normalisation (`getPath`). -/
structure Request where
  method : Method
  path : String
  customerIdParam : Option String
  body : PostBody
deriving DecidableEq

/-- Environment of the Lambda: `DATA_BUCKET` presence, `PIPELINE_LAMBDA_ARN`,
and the payload the pipeline Lambda would reply with if invoked. -/
structure Config where
  bucketConfigured : Bool
  pipelineArn : Option String
  pipelineErrorMessage : Option String
  pipelineStdout : Option String
deriving DecidableEq

/-- JSON response body. -/
inductive RespBody where
  | errorMsg (e : String)
  | customers (l : List CustomerRow)
  | products (l : List ProductRow)
  | orders (l : List OrderSummary)
  | queue (l : List QueueRow)
  | orderOk (orderId : Nat)
  | scoringOk (stdout : String)
  | empty
  | jsUndefined
deriving DecidableEq

/-- Outcome of one handler invocation: HTTP status and body, the database
that was uploaded back to S3 (`none` when `uploadDbToS3` never ran), and
whether the pipeline Lambda was invoked. -/
structure HandlerOut where
  status : Nat
  body : RespBody
  uploaded : Option Store
  jobInvoked : Bool
deriving DecidableEq

/-- The API Lambda `handler` of `src/lambdas/api/index.js`, as a function of
the environment, the current instant, the request, and the store decoded from
the durable blob.  The Lambda never issues `PRAGMA foreign_keys`, so its
transaction runs with `fk := false`. -/
def handler (cfg : Config) (now : Nat) (req : Request) (s : Store) : HandlerOut :=
  if req.method = Method.OPTIONS then ⟨204, RespBody.empty, none, false⟩
  else if !cfg.bucketConfigured then
    ⟨500, RespBody.errorMsg "DATA_BUCKET not configured", none, false⟩
  else
    match req.path, req.method with
    | "/customers", Method.GET => ⟨200, RespBody.customers (getCustomers s), none, false⟩
    | "/products", Method.GET => ⟨200, RespBody.products (getProducts s), none, false⟩
    | "/orders", Method.GET =>
      match req.customerIdParam with
      | none => ⟨400, RespBody.errorMsg "customerId required", none, false⟩
      | some cid =>
        if cid = "" then ⟨400, RespBody.errorMsg "customerId required", none, false⟩
        else ⟨200, RespBody.orders (getOrders s (parseIntJs cid)), none, false⟩
    | "/orders", Method.POST =>
      if !req.body.customerId.truthy then
        ⟨400, RespBody.errorMsg "customerId and items (array) required", none, false⟩
      else
        match req.body.items with
        | none =>
          ⟨400, RespBody.errorMsg "customerId and items (array) required", none, false⟩
        | some [] =>
          ⟨400, RespBody.errorMsg "customerId and items (array) required", none, false⟩
        | some items =>
          match postOrderDb false now req.body.customerId items s with
          | (s2, Except.ok oid) => ⟨200, RespBody.orderOk oid, some s2, false⟩
          | (_, Except.error e) => ⟨500, RespBody.errorMsg (txMessage e), none, false⟩
    | "/priority-queue", Method.GET => ⟨200, RespBody.queue (getPriorityQueue s), none, false⟩
    | "/run-scoring", Method.POST =>
      match cfg.pipelineArn with
      | none =>
        ⟨500, RespBody.errorMsg "PIPELINE_LAMBDA_ARN not configured", none, false⟩
      | some _ =>
        match cfg.pipelineErrorMessage with
        | some m => ⟨500, RespBody.errorMsg m, none, true⟩
        | none => ⟨200, RespBody.scoringOk (cfg.pipelineStdout.getD ""), none, true⟩
    | "/orders", _ => ⟨200, RespBody.jsUndefined, none, false⟩
    | _, _ => ⟨404, RespBody.errorMsg "Not found", none, false⟩

/-- The store a later request would decode from the durable blob: the uploaded
database when the handler persisted one, the previous durable store otherwise. -/
def storeAfter (out : HandlerOut) (s : Store) : Store :=
  out.uploaded.getD s

/-!
Store Snapshot Codec.

Modelled from the spec: the codec itself is the SQLite file
serialization performed inside the sql.js library (`db.export()` /
`new Sql.Database(buf)`), which is not part of this repository's sources;
§4.1 requires `encode`/`decode` to round-trip the relational content of the
store.  The blob is modelled as a flat symbol sequence.
-/

/-- Decode one leading symbol as a `Nat`. -/
def decNat : List Nat → Option (Nat × List Nat)
  | [] => none
  | n :: rest => some (n, rest)

/-- Encode a `Nat` as one symbol. -/
def encNat (n : Nat) : List Nat := [n]

/-- Encode an `Int` as a sign symbol followed by its absolute value. -/
def encInt (i : Int) : List Nat :=
  if i < 0 then 1 :: encNat i.natAbs else 0 :: encNat i.natAbs

/-- Decode an `Int`. -/
def decInt : List Nat → Option (Int × List Nat)
  | 1 :: rest => (decNat rest).map (fun p => (-(p.1 : Int), p.2))
  | 0 :: rest => (decNat rest).map (fun p => ((p.1 : Int), p.2))
  | _ => none

/-- Encode a `Bool`. -/
def encBool (b : Bool) : List Nat := [cond b 1 0]

/-- Decode a `Bool`. -/
def decBool : List Nat → Option (Bool × List Nat)
  | 0 :: rest => some (false, rest)
  | 1 :: rest => some (true, rest)
  | _ => none

/-- Encode a rational as numerator then denominator. -/
def encRat (q : ℚ) : List Nat := encInt q.num ++ encNat q.den

/-- Decode a rational. -/
def decRat (b : List Nat) : Option (ℚ × List Nat) :=
  (decInt b).bind fun p =>
    (decNat p.2).map fun r => (((p.1 : ℚ) / (r.1 : ℚ)), r.2)

/-- Encode a string as its length followed by its character codes. -/
def encString (s : String) : List Nat :=
  encNat s.toList.length ++ s.toList.map Char.toNat

/-- Decode `k` character codes. -/
def decChars : Nat → List Nat → Option (List Char × List Nat)
  | 0, rest => some ([], rest)
  | _ + 1, [] => none
  | k + 1, n :: rest => (decChars k rest).map fun p => (Char.ofNat n :: p.1, p.2)

/-- Decode a string. -/
def decString (b : List Nat) : Option (String × List Nat) :=
  (decNat b).bind fun p =>
    (decChars p.1 p.2).map fun r => (String.mk r.1, r.2)

/-- Encode a `JsVal` as a tag followed by its payload. -/
def encJsVal : JsVal → List Nat
  | .num q => 0 :: encRat q
  | .str s => 1 :: encString s
  | .boolv b => 2 :: encBool b
  | .nullv => [3]
  | .undef => [4]

/-- Decode a `JsVal`. -/
def decJsVal : List Nat → Option (JsVal × List Nat)
  | 0 :: rest => (decRat rest).map fun p => (JsVal.num p.1, p.2)
  | 1 :: rest => (decString rest).map fun p => (JsVal.str p.1, p.2)
  | 2 :: rest => (decBool rest).map fun p => (JsVal.boolv p.1, p.2)
  | 3 :: rest => some (JsVal.nullv, rest)
  | 4 :: rest => some (JsVal.undef, rest)
  | _ => none

/-- Encode a list: length followed by the encoded elements. -/
def encListWith (enc : α → List Nat) (l : List α) : List Nat :=
  encNat l.length ++ l.flatMap enc

/-- Decode `k` elements. -/
def decElems (dec : List Nat → Option (α × List Nat)) :
    Nat → List Nat → Option (List α × List Nat)
  | 0, rest => some ([], rest)
  | k + 1, rest =>
    (dec rest).bind fun p =>
      (decElems dec k p.2).map fun r => (p.1 :: r.1, r.2)

/-- Decode a list. -/
def decListWith (dec : List Nat → Option (α × List Nat)) (b : List Nat) :
    Option (List α × List Nat) :=
  (decNat b).bind fun p => decElems dec p.1 p.2

/-- Encode a `Customer` row, field by field. -/
def encCustomer (c : Customer) : List Nat :=
  encRat c.customer_id ++ encString c.full_name ++ encString c.email ++
    encString c.city ++ encString c.state ++ encBool c.is_active

/-- Decode a `Customer` row. -/
def decCustomer (b : List Nat) : Option (Customer × List Nat) :=
  (decRat b).bind fun p1 =>
  (decString p1.2).bind fun p2 =>
  (decString p2.2).bind fun p3 =>
  (decString p3.2).bind fun p4 =>
  (decString p4.2).bind fun p5 =>
  (decBool p5.2).map fun p6 =>
    (⟨p1.1, p2.1, p3.1, p4.1, p5.1, p6.1⟩, p6.2)

/-- Encode a `Product` row, field by field. -/
def encProduct (p : Product) : List Nat :=
  encInt p.product_id ++ encString p.sku ++ encString p.product_name ++
    encString p.category ++ encRat p.price ++ encBool p.is_active

/-- Decode a `Product` row. -/
def decProduct (b : List Nat) : Option (Product × List Nat) :=
  (decInt b).bind fun p1 =>
  (decString p1.2).bind fun p2 =>
  (decString p2.2).bind fun p3 =>
  (decString p3.2).bind fun p4 =>
  (decRat p4.2).bind fun p5 =>
  (decBool p5.2).map fun p6 =>
    (⟨p1.1, p2.1, p3.1, p4.1, p5.1, p6.1⟩, p6.2)

/-- Encode an `OrderRow`, field by field. -/
def encOrderRow (o : OrderRow) : List Nat :=
  encNat o.order_id ++ (encJsVal o.customer_id ++ (encNat o.order_datetime ++
    (encString o.payment_method ++ (encString o.device_type ++
    (encString o.ip_country ++ (encBool o.promo_used ++
    (encRat o.order_subtotal ++ (encRat o.shipping_fee ++
    (encRat o.tax_amount ++ (encRat o.order_total ++
    (encRat o.risk_score ++ encBool o.is_fraud)))))))))))

/-- Decode an `OrderRow`. -/
def decOrderRow (b : List Nat) : Option (OrderRow × List Nat) :=
  (decNat b).bind fun p1 =>
  (decJsVal p1.2).bind fun p2 =>
  (decNat p2.2).bind fun p3 =>
  (decString p3.2).bind fun p4 =>
  (decString p4.2).bind fun p5 =>
  (decString p5.2).bind fun p6 =>
  (decBool p6.2).bind fun p7 =>
  (decRat p7.2).bind fun p8 =>
  (decRat p8.2).bind fun p9 =>
  (decRat p9.2).bind fun p10 =>
  (decRat p10.2).bind fun p11 =>
  (decRat p11.2).bind fun p12 =>
  (decBool p12.2).map fun p13 =>
    (⟨p1.1, p2.1, p3.1, p4.1, p5.1, p6.1, p7.1, p8.1, p9.1, p10.1, p11.1,
      p12.1, p13.1⟩, p13.2)

/-- Encode an `OrderItem`, field by field. -/
def encOrderItem (it : OrderItem) : List Nat :=
  encNat it.order_id ++ encInt it.product_id ++ encRat it.quantity ++
    encRat it.unit_price ++ encRat it.line_total

/-- Decode an `OrderItem`. -/
def decOrderItem (b : List Nat) : Option (OrderItem × List Nat) :=
  (decNat b).bind fun p1 =>
  (decInt p1.2).bind fun p2 =>
  (decRat p2.2).bind fun p3 =>
  (decRat p3.2).bind fun p4 =>
  (decRat p4.2).map fun p5 =>
    (⟨p1.1, p2.1, p3.1, p4.1, p5.1⟩, p5.2)

/-- Encode a `Prediction`, field by field. -/
def encPrediction (p : Prediction) : List Nat :=
  encNat p.order_id ++ encRat p.late_delivery_probability ++
    encBool p.predicted_late_delivery ++ encString p.prediction_timestamp

/-- Decode a `Prediction`. -/
def decPrediction (b : List Nat) : Option (Prediction × List Nat) :=
  (decNat b).bind fun p1 =>
  (decRat p1.2).bind fun p2 =>
  (decBool p2.2).bind fun p3 =>
  (decString p3.2).map fun p4 =>
    (⟨p1.1, p2.1, p3.1, p4.1⟩, p4.2)

/-- Encode the whole store: the five tables and the rowid counter. -/
def encodeStore (s : Store) : List Nat :=
  encListWith encCustomer s.customers ++ (encListWith encProduct s.products ++
    (encListWith encOrderRow s.orders ++ (encListWith encOrderItem s.order_items ++
    (encListWith encPrediction s.predictions ++ encNat s.nextOrderId))))

/-- Decode the whole store; any leftover or missing symbols mean the blob is
malformed (`CorruptSnapshot`, modelled by `none`). -/
def decodeStore (b : List Nat) : Option Store :=
  (decListWith decCustomer b).bind fun p1 =>
  (decListWith decProduct p1.2).bind fun p2 =>
  (decListWith decOrderRow p2.2).bind fun p3 =>
  (decListWith decOrderItem p3.2).bind fun p4 =>
  (decListWith decPrediction p4.2).bind fun p5 =>
  (decNat p5.2).bind fun p6 =>
    if p6.2 = [] then
      some ⟨p1.1, p2.1, p3.1, p4.1, p5.1, p6.1⟩
    else none

theorem decNat_enc (n : Nat) (rest : List Nat) :
    decNat (encNat n ++ rest) = some (n, rest) := rfl

theorem decInt_enc (i : Int) (rest : List Nat) :
    decInt (encInt i ++ rest) = some (i, rest) := by
  rcases le_or_lt 0 i with h | h
  · have habs : ((i.natAbs : ℤ)) = i := by omega
    rw [encInt, if_neg (not_lt.mpr h)]
    simp [decInt, encNat, decNat, habs]
  · have habs : ((i.natAbs : ℤ)) = -i := by omega
    rw [encInt, if_pos h]
    simp [decInt, encNat, decNat, habs]

theorem decBool_enc (b : Bool) (rest : List Nat) :
    decBool (encBool b ++ rest) = some (b, rest) := by
  cases b <;> rfl

theorem decRat_enc (q : ℚ) (rest : List Nat) :
    decRat (encRat q ++ rest) = some (q, rest) := by
  simp [encRat, decRat, List.append_assoc, decInt_enc, decNat_enc,
    Option.bind_eq_bind, Rat.num_div_den]

theorem decChars_enc (cs : List Char) (rest : List Nat) :
    decChars cs.length (cs.map Char.toNat ++ rest) = some (cs, rest) := by
  induction cs with
  | nil => rfl
  | cons c cs ih => simp [decChars, ih, Char.ofNat_toNat]

theorem decString_enc (s : String) (rest : List Nat) :
    decString (encString s ++ rest) = some (s, rest) := by
  obtain ⟨l⟩ := s
  simp [encString, decString, String.toList, List.append_assoc, decNat_enc,
    decChars_enc]

theorem decJsVal_enc (v : JsVal) (rest : List Nat) :
    decJsVal (encJsVal v ++ rest) = some (v, rest) := by
  cases v with
  | num q => simp [encJsVal, decJsVal, decRat_enc]
  | str s => simp [encJsVal, decJsVal, decString_enc]
  | boolv b => simp [encJsVal, decJsVal, decBool_enc]
  | nullv => rfl
  | undef => rfl

theorem decElems_enc {enc : α → List Nat}
    {dec : List Nat → Option (α × List Nat)}
    (h : ∀ a rest, dec (enc a ++ rest) = some (a, rest))
    (l : List α) (rest : List Nat) :
    decElems dec l.length (l.flatMap enc ++ rest) = some (l, rest) := by
  induction l with
  | nil => rfl
  | cons a l ih => simp [decElems, List.append_assoc, h, ih]

theorem decListWith_enc {enc : α → List Nat}
    {dec : List Nat → Option (α × List Nat)}
    (h : ∀ a rest, dec (enc a ++ rest) = some (a, rest))
    (l : List α) (rest : List Nat) :
    decListWith dec (encListWith enc l ++ rest) = some (l, rest) := by
  simp [encListWith, decListWith, List.append_assoc, decNat_enc, decElems_enc h]

theorem decCustomer_enc (c : Customer) (rest : List Nat) :
    decCustomer (encCustomer c ++ rest) = some (c, rest) := by
  simp [encCustomer, decCustomer, List.append_assoc, decRat_enc, decString_enc,
    decBool_enc]

theorem decProduct_enc (p : Product) (rest : List Nat) :
    decProduct (encProduct p ++ rest) = some (p, rest) := by
  simp [encProduct, decProduct, List.append_assoc, decInt_enc, decString_enc,
    decRat_enc, decBool_enc]

theorem decOrderRow_enc (o : OrderRow) (rest : List Nat) :
    decOrderRow (encOrderRow o ++ rest) = some (o, rest) := by
  unfold decOrderRow encOrderRow
  rw [List.append_assoc, decNat_enc, Option.some_bind]
  rw [List.append_assoc, decJsVal_enc, Option.some_bind]
  rw [List.append_assoc, decNat_enc, Option.some_bind]
  rw [List.append_assoc, decString_enc, Option.some_bind]
  rw [List.append_assoc, decString_enc, Option.some_bind]
  rw [List.append_assoc, decString_enc, Option.some_bind]
  rw [List.append_assoc, decBool_enc, Option.some_bind]
  rw [List.append_assoc, decRat_enc, Option.some_bind]
  rw [List.append_assoc, decRat_enc, Option.some_bind]
  rw [List.append_assoc, decRat_enc, Option.some_bind]
  rw [List.append_assoc, decRat_enc, Option.some_bind]
  rw [List.append_assoc, decRat_enc, Option.some_bind]
  rw [decBool_enc, Option.map_some']

theorem decOrderItem_enc (it : OrderItem) (rest : List Nat) :
    decOrderItem (encOrderItem it ++ rest) = some (it, rest) := by
  simp [encOrderItem, decOrderItem, List.append_assoc, decNat_enc, decInt_enc,
    decRat_enc]

theorem decPrediction_enc (p : Prediction) (rest : List Nat) :
    decPrediction (encPrediction p ++ rest) = some (p, rest) := by
  simp [encPrediction, decPrediction, List.append_assoc, decNat_enc,
    decRat_enc, decBool_enc, decString_enc]

/-- C8: decoding the bytes produced by encoding a store handle yields a handle
whose relational content — customers, products, orders, order items and
predictions (and the rowid counter) — is identical to the original. -/
theorem c8_decode_encode_round_trip (s : Store) :
    decodeStore (encodeStore s) = some s := by
  unfold decodeStore encodeStore
  rw [decListWith_enc decCustomer_enc, Option.some_bind]
  rw [decListWith_enc decProduct_enc, Option.some_bind]
  rw [decListWith_enc decOrderRow_enc, Option.some_bind]
  rw [decListWith_enc decOrderItem_enc, Option.some_bind]
  rw [decListWith_enc decPrediction_enc, Option.some_bind]
  rfl

/-!
Properties of the order transaction.
-/

/-- Did the transaction commit? -/
def txOk : Except TxError Nat → Bool
  | Except.ok _ => true
  | Except.error _ => false

theorem insertItems_ok_frame (fk : Bool) (oid : Nat) :
    ∀ (items : List Item) (s s' : Store),
      insertItems fk oid s items = Except.ok s' →
      s'.products = s.products ∧ s'.orders = s.orders ∧
        s'.customers = s.customers ∧ s'.predictions = s.predictions ∧
        s'.nextOrderId = s.nextOrderId := by
  intro items
  induction items with
  | nil =>
    intro s s' h
    simp [insertItems] at h
    simp [h]
  | cons it rest ih =>
    intro s s' h
    rw [insertItems] at h
    by_cases hc : fk && !(productExists s it.productId)
    · rw [if_pos hc] at h
      exact absurd h (by simp)
    · rw [if_neg hc] at h
      have h2 := ih _ _ h
      exact h2

theorem insertItems_false_ok (oid : Nat) :
    ∀ (items : List Item) (s : Store),
      ∃ s', insertItems false oid s items = Except.ok s' := by
  intro items
  induction items with
  | nil => intro s; exact ⟨s, rfl⟩
  | cons it rest ih =>
    intro s
    rw [insertItems]
    simpa using ih _

theorem insertItems_error_of_missing (oid : Nat) :
    ∀ (items : List Item) (s : Store),
      (∃ it ∈ items, productExists s it.productId = false) →
      ∃ e, insertItems true oid s items = Except.error e := by
  intro items
  induction items with
  | nil => intro s h; simp at h
  | cons it rest ih =>
    intro s h
    rw [insertItems]
    by_cases hc : productExists s it.productId
    · rw [if_neg (by simp [hc])]
      apply ih
      rcases h with ⟨it', hmem, hmiss⟩
      rcases List.mem_cons.mp hmem with heq | hmem'
      · exact absurd hmiss (by rw [heq]; simp [hc])
      · exact ⟨it', hmem', hmiss⟩
    · rw [if_pos (by simp [hc])]
      exact ⟨TxError.itemFkViolation, rfl⟩

theorem postOrderDb_false_ok (now : Nat) (cust : JsVal) (items : List Item)
    (s : Store) :
    ∃ s', postOrderDb false now cust items s = (s', Except.ok s.nextOrderId) := by
  obtain ⟨s', h⟩ := insertItems_false_ok s.nextOrderId items
    { s with orders := s.orders ++ [mkOrderRow s.nextOrderId cust now items],
             nextOrderId := s.nextOrderId + 1 }
  exact ⟨s', by simp [postOrderDb, h]⟩

theorem foldl_add_shift (f : Item → ℚ) :
    ∀ (items : List Item) (acc : ℚ),
      items.foldl (fun a it => a + f it) acc = acc + (items.map f).sum := by
  intro items
  induction items with
  | nil => intro acc; simp
  | cons it rest ih =>
    intro acc
    simp [List.foldl_cons, ih, add_assoc]

theorem sumItems_eq_map_sum (items : List Item) :
    sumItems items = (items.map (fun it => it.quantity * it.unitPrice)).sum := by
  rw [sumItems, foldl_add_shift, zero_add]

/-- C2: on every committed `placeOrder` transaction, the inserted order row
carries `subtotal = Σ quantity·unitPrice`, `shipping_fee = 0` when the
subtotal exceeds 100 and `9.99` (= 999/100) otherwise,
`tax = round2(subtotal · 0.08)` and `total = round2(subtotal + fee + tax)`,
with `round2` rounding half-up to 2 decimal places. -/
theorem c2_order_totals (fk : Bool) (now : Nat) (cust : JsVal)
    (items : List Item) (s s' : Store) (oid : Nat)
    (hne : items ≠ [])
    (hpos : ∀ it ∈ items, 0 < it.quantity ∧ 0 < it.unitPrice)
    (hok : postOrderDb fk now cust items s = (s', Except.ok oid)) :
    ∃ row, s'.orders = s.orders ++ [row] ∧
      row.order_subtotal = (items.map (fun it => it.quantity * it.unitPrice)).sum ∧
      row.shipping_fee =
        (if (items.map (fun it => it.quantity * it.unitPrice)).sum > 100
          then 0 else 999/100) ∧
      row.tax_amount =
        round2 ((items.map (fun it => it.quantity * it.unitPrice)).sum * (8/100)) ∧
      row.order_total =
        round2 ((items.map (fun it => it.quantity * it.unitPrice)).sum +
          row.shipping_fee + row.tax_amount) := by
  rw [postOrderDb] at hok
  by_cases hfk : fk && !(customerExists s cust)
  · rw [if_pos hfk] at hok
    exact absurd (congrArg Prod.snd hok) (by simp)
  · rw [if_neg hfk] at hok
    rcases hins : insertItems fk s.nextOrderId
        { s with orders := s.orders ++ [mkOrderRow s.nextOrderId cust now items],
                 nextOrderId := s.nextOrderId + 1 } items with e | s2
    · rw [hins] at hok
      exact absurd (congrArg Prod.snd hok) (by simp)
    · rw [hins] at hok
      have hs' : s' = s2 := (congrArg Prod.fst hok).symm
      have hord := (insertItems_ok_frame fk s.nextOrderId items _ _ hins).2.1
      refine ⟨mkOrderRow s.nextOrderId cust now items, ?_, ?_, ?_, ?_, ?_⟩
      · rw [hs', hord]
      · rw [mkOrderRow, sumItems_eq_map_sum]
      · rw [mkOrderRow, sumItems_eq_map_sum]
      · rw [mkOrderRow, sumItems_eq_map_sum]
      · rw [mkOrderRow, sumItems_eq_map_sum]

/-- C3: whenever a line-item insert fails under enforced foreign keys
(a dangling product reference), the whole transaction — including the already
inserted order row — is rolled back: `postOrder` fails and the store is the
pre-transaction store, so no partial order is visible to any subsequent read. -/
theorem c3_rollback_on_item_failure (now : Nat) (cust : JsVal)
    (items : List Item) (s : Store)
    (hfail : ∃ it ∈ items, productExists s it.productId = false) :
    (∃ e, postOrderDb true now cust items s = (s, Except.error e)) ∧
      (postOrderDb true now cust items s).1 = s := by
  rw [postOrderDb]
  by_cases hc : customerExists s cust
  · rw [if_neg (by simp [hc])]
    obtain ⟨e, he⟩ := insertItems_error_of_missing s.nextOrderId items
      { s with orders := s.orders ++ [mkOrderRow s.nextOrderId cust now items],
               nextOrderId := s.nextOrderId + 1 } hfail
    rw [he]
    exact ⟨⟨e, rfl⟩, rfl⟩
  · rw [if_pos (by simp [hc])]
    exact ⟨⟨TxError.orderFkViolation, rfl⟩, rfl⟩

/-!
Handler-level theorems and concrete fixtures.
-/

instance : IsTotal OrderRow (fun a b => b.order_datetime ≤ a.order_datetime) :=
  ⟨fun a b => le_total b.order_datetime a.order_datetime⟩

instance : IsTrans OrderRow (fun a b => b.order_datetime ≤ a.order_datetime) :=
  ⟨fun _ _ _ hab hbc => le_trans hbc hab⟩

/-- Environment with a data bucket but no pipeline Lambda configured. -/
def apiConfig : Config := ⟨true, none, none, none⟩

/-- A seed store: one active customer (id 1), one active product (id 7). -/
def seedStore : Store :=
  { customers := [⟨1, "Ada Lovelace", "ada@example.com", "London", "LDN", true⟩],
    products := [⟨7, "SKU-7", "Widget", "tools", 30, true⟩],
    orders := [], order_items := [], predictions := [], nextOrderId := 1 }

/-- A store holding two orders of customer 1, created at instants 5 and 9. -/
def ordersStore : Store :=
  { customers := [⟨1, "Ada Lovelace", "ada@example.com", "London", "LDN", true⟩],
    products := [],
    orders :=
      [⟨11, JsVal.num 1, 5, "card", "desktop", "US", false, 60, 10, 5, 75, 0, false⟩,
       ⟨12, JsVal.num 1, 9, "card", "desktop", "US", false, 40, 10, 3, 53, 0, false⟩],
    order_items := [], predictions := [], nextOrderId := 13 }

/-- C6 (amended): `GET /orders` fails with `InvalidArgument` (HTTP 400,
"customerId required") exactly when the `customerId` query parameter is absent
or empty; a present non-numeric value is NOT rejected — it parses to `NaN`,
which matches no row — and a present parameter yields HTTP 200 whose rows are
that parsed customer's orders, newest first by creation timestamp. -/
theorem c6_list_orders (cfg : Config) (now : Nat) (s : Store)
    (cidp : Option String) (body : PostBody)
    (hb : cfg.bucketConfigured = true) :
    ((cidp = none ∨ cidp = some "") →
      handler cfg now ⟨Method.GET, "/orders", cidp, body⟩ s =
        ⟨400, RespBody.errorMsg "customerId required", none, false⟩) ∧
    (∀ str, cidp = some str → str ≠ "" →
      handler cfg now ⟨Method.GET, "/orders", cidp, body⟩ s =
        ⟨200, RespBody.orders (getOrders s (parseIntJs str)), none, false⟩ ∧
      List.Sorted (fun a b : OrderSummary => b.order_datetime ≤ a.order_datetime)
        (getOrders s (parseIntJs str)) ∧
      (parseIntJs str = none → getOrders s (parseIntJs str) = []) ∧
      (∀ n, parseIntJs str = some n →
        (getOrders s (parseIntJs str)).Perm
          ((s.orders.filter
              (fun o => decide (o.customer_id = JsVal.num (n : ℚ)))).map
            (fun o => ⟨o.order_id, o.order_datetime, o.order_total,
              o.order_subtotal⟩)))) := by
  constructor
  · rintro (h | h) <;> subst h <;> simp [handler, hb]
  · intro str h hne
    subst h
    refine ⟨by simp [handler, hb, hne], ?_, ?_, ?_⟩
    · rw [getOrders]
      refine List.pairwise_map.mpr ?_
      exact List.sorted_insertionSort
        (fun a b : OrderRow => b.order_datetime ≤ a.order_datetime) _
    · intro hnan
      rw [hnan, getOrders]
      simp
    · intro n hn
      rw [hn, getOrders]
      exact (List.perm_insertionSort _ _).map _

/-- C6 counterexample: a present but non-numeric `customerId` (here `"abc"`,
which parses to `NaN`) is answered with HTTP 200, not with the
`InvalidArgument` failure the claim requires. -/
theorem c6_cex_non_numeric_not_rejected :
    parseIntJs "abc" = none ∧
    (handler apiConfig 0 ⟨Method.GET, "/orders", some "abc", ⟨JsVal.undef, none⟩⟩
        ordersStore).status = 200 := by
  constructor
  · rfl
  · decide

theorem c6_list_orders_witness :
    (handler apiConfig 0 ⟨Method.GET, "/orders", some "1", ⟨JsVal.undef, none⟩⟩
        ordersStore =
      ⟨200, RespBody.orders (getOrders ordersStore (parseIntJs "1")), none,
        false⟩) ∧
    List.Sorted (fun a b : OrderSummary => b.order_datetime ≤ a.order_datetime)
      (getOrders ordersStore (parseIntJs "1")) := by
  have h := (c6_list_orders apiConfig 0 ordersStore (some "1") ⟨JsVal.undef, none⟩
    rfl).2 "1" rfl (by decide)
  exact ⟨h.1, h.2.1⟩

theorem getPriorityQueue_mem_prob (s : Store) (r : QueueRow)
    (hr : r ∈ getPriorityQueue s) :
    ∃ p ∈ s.predictions,
      r.late_delivery_probability = p.late_delivery_probability := by
  rw [getPriorityQueue] at hr
  have h1 := List.take_subset 50 _ hr
  have h2 : r ∈ queueJoin s := (List.perm_insertionSort _ _).mem_iff.mp h1
  rw [queueJoin] at h2
  simp only [List.mem_flatMap, List.mem_map, List.mem_filter] at h2
  obtain ⟨p, hp, o, _, c, _, heq⟩ := h2
  exact ⟨p, hp, by rw [← heq]⟩

/-- C5 (amended): `priorityQueue` returns at most 50 rows, and every returned
probability is one stored in the predictions table; hence whenever every
stored prediction probability lies in `[0,1]` — as those written by the
scoring job do — every returned probability lies in `[0,1]`.  The query itself
does not constrain the stored values. -/
theorem c5_priority_queue (s : Store)
    (hin : ∀ p ∈ s.predictions,
      0 ≤ p.late_delivery_probability ∧ p.late_delivery_probability ≤ 1) :
    (getPriorityQueue s).length ≤ 50 ∧
    ∀ r ∈ getPriorityQueue s,
      0 ≤ r.late_delivery_probability ∧ r.late_delivery_probability ≤ 1 := by
  constructor
  · rw [getPriorityQueue]
    exact List.length_take_le 50 _
  · intro r hr
    obtain ⟨p, hp, he⟩ := getPriorityQueue_mem_prob s r hr
    rw [he]
    exact hin p hp

/-- A store whose prediction table holds an out-of-range probability. -/
def outOfRangeStore : Store :=
  { customers := [⟨1, "Ada Lovelace", "ada@example.com", "London", "LDN", true⟩],
    products := [],
    orders :=
      [⟨11, JsVal.num 1, 5, "card", "desktop", "US", false, 60, 10, 5, 75, 0, false⟩],
    order_items := [],
    predictions := [⟨11, 2, true, "2026-01-01 00:00:00"⟩],
    nextOrderId := 12 }

/-- A store whose stored prediction probabilities all lie in `[0,1]`. -/
def inRangeStore : Store :=
  { customers := [⟨1, "Ada Lovelace", "ada@example.com", "London", "LDN", true⟩],
    products := [],
    orders :=
      [⟨11, JsVal.num 1, 5, "card", "desktop", "US", false, 60, 10, 5, 75, 0, false⟩],
    order_items := [],
    predictions := [⟨11, 1, true, "2026-01-01 00:00:00"⟩],
    nextOrderId := 12 }

/-- C5 counterexample: nothing in the query bounds the returned probability —
a store whose prediction row carries probability 2 makes `priorityQueue`
return a row with probability outside `[0,1]`. -/
theorem c5_cex_out_of_range_returned :
    ∃ r ∈ getPriorityQueue outOfRangeStore,
      ¬(r.late_delivery_probability ≤ 1) := by decide

theorem c5_priority_queue_witness :
    (∀ p ∈ inRangeStore.predictions,
      0 ≤ p.late_delivery_probability ∧ p.late_delivery_probability ≤ 1) ∧
    ((getPriorityQueue inRangeStore).length ≤ 50 ∧
      ∀ r ∈ getPriorityQueue inRangeStore,
        0 ≤ r.late_delivery_probability ∧ r.late_delivery_probability ≤ 1) :=
  ⟨by decide, c5_priority_queue inRangeStore (by decide)⟩

/-- C1 (amended): `POST /orders` fails with `InvalidArgument` (HTTP 400) and
leaves the store untouched when `items` is missing, not an array, or empty;
but the positivity of `quantity`/`unitPrice` is never validated: any
non-empty items array is accepted, and (foreign keys being unenforced in the
Lambda) the transaction commits. -/
theorem c1_items_validation (cfg : Config) (now : Nat) (s : Store)
    (cidp : Option String) (cid : JsVal) (bitems : Option (List Item))
    (hb : cfg.bucketConfigured = true)
    (hcust : JsVal.truthy cid = true) :
    ((bitems = none ∨ bitems = some []) →
      handler cfg now ⟨Method.POST, "/orders", cidp, ⟨cid, bitems⟩⟩ s =
        ⟨400, RespBody.errorMsg "customerId and items (array) required", none,
          false⟩) ∧
    (∀ items, bitems = some items → items ≠ [] →
      ∃ s', handler cfg now ⟨Method.POST, "/orders", cidp, ⟨cid, bitems⟩⟩ s =
        ⟨200, RespBody.orderOk s.nextOrderId, some s', false⟩) := by
  constructor
  · rintro (h | h) <;> subst h <;> simp [handler, hb, hcust]
  · intro items hit hne
    subst hit
    obtain ⟨s', hok⟩ := postOrderDb_false_ok now cid items s
    rcases items with _ | ⟨it, rest⟩
    · exact absurd rfl hne
    · exact ⟨s', by simp [handler, hb, hcust, hok]⟩

/-- C1 counterexample: an item whose quantity is 0 — not positive — is not
rejected with `InvalidArgument`: the request succeeds with HTTP 200. -/
theorem c1_cex_nonpositive_quantity_accepted :
    (handler apiConfig 0
        ⟨Method.POST, "/orders", none, ⟨JsVal.num 1, some [⟨7, 0, 30⟩]⟩⟩
        seedStore).status = 200 := by decide

theorem c1_items_validation_witness :
    JsVal.truthy (JsVal.num 1) = true ∧
    handler apiConfig 0 ⟨Method.POST, "/orders", none, ⟨JsVal.num 1, some []⟩⟩
        seedStore =
      ⟨400, RespBody.errorMsg "customerId and items (array) required", none,
        false⟩ :=
  ⟨by decide,
    (c1_items_validation apiConfig 0 seedStore none (JsVal.num 1) (some [])
      rfl (by decide)).1 (Or.inr rfl)⟩

/-- C10: `POST /orders` rejects with HTTP 400 and error
"customerId and items (array) required" every body whose `customerId` is
falsy — including the number 0 — without starting the transaction or
uploading anything. -/
theorem c10_falsy_customer_rejected (cfg : Config) (now : Nat) (s : Store)
    (cidp : Option String) (cid : JsVal) (bitems : Option (List Item))
    (hb : cfg.bucketConfigured = true)
    (hfalsy : JsVal.truthy cid = false) :
    handler cfg now ⟨Method.POST, "/orders", cidp, ⟨cid, bitems⟩⟩ s =
      ⟨400, RespBody.errorMsg "customerId and items (array) required", none,
        false⟩ := by
  simp [handler, hb, hfalsy]

theorem c10_falsy_customer_rejected_witness :
    JsVal.truthy (JsVal.num 0) = false ∧
    handler apiConfig 0
        ⟨Method.POST, "/orders", none, ⟨JsVal.num 0, some [⟨7, 1, 30⟩]⟩⟩
        seedStore =
      ⟨400, RespBody.errorMsg "customerId and items (array) required", none,
        false⟩ :=
  ⟨by decide,
    c10_falsy_customer_rejected apiConfig 0 seedStore none (JsVal.num 0)
      (some [⟨7, 1, 30⟩]) rfl (by decide)⟩

/-- C9: `POST /run-scoring` with no pipeline Lambda configured fails with the
`JobUnavailable` error (HTTP 500, "PIPELINE_LAMBDA_ARN not configured"),
invokes no job, uploads nothing, and the priority queue read from durable
storage afterward is unchanged. -/
theorem c9_scoring_unconfigured (cfg : Config) (now : Nat) (s : Store)
    (cidp : Option String) (body : PostBody)
    (hb : cfg.bucketConfigured = true)
    (harn : cfg.pipelineArn = none) :
    handler cfg now ⟨Method.POST, "/run-scoring", cidp, body⟩ s =
      ⟨500, RespBody.errorMsg "PIPELINE_LAMBDA_ARN not configured", none,
        false⟩ ∧
    getPriorityQueue
        (storeAfter (handler cfg now ⟨Method.POST, "/run-scoring", cidp, body⟩ s)
          s) =
      getPriorityQueue s := by
  have h1 : handler cfg now ⟨Method.POST, "/run-scoring", cidp, body⟩ s =
      ⟨500, RespBody.errorMsg "PIPELINE_LAMBDA_ARN not configured", none,
        false⟩ := by
    simp [handler, hb, harn]
  exact ⟨h1, by rw [h1]; rfl⟩

theorem c9_scoring_unconfigured_witness :
    apiConfig.pipelineArn = none ∧
    handler apiConfig 0 ⟨Method.POST, "/run-scoring", none, ⟨JsVal.undef, none⟩⟩
        seedStore =
      ⟨500, RespBody.errorMsg "PIPELINE_LAMBDA_ARN not configured", none,
        false⟩ ∧
    getPriorityQueue
        (storeAfter
          (handler apiConfig 0
            ⟨Method.POST, "/run-scoring", none, ⟨JsVal.undef, none⟩⟩ seedStore)
          seedStore) =
      getPriorityQueue seedStore :=
  ⟨rfl, c9_scoring_unconfigured apiConfig 0 seedStore none ⟨JsVal.undef, none⟩
    rfl rfl⟩

/-- C7 (code bug): the Lambda never enables `PRAGMA foreign_keys`, so a
`POST /orders` whose item references a product id absent from the products
table commits and uploads an order item whose product reference does not
resolve — contradicting the referential-integrity invariant the dev server
enforces via `foreign_keys = ON`. -/
theorem c7_dangling_reference_committed :
    productExists seedStore 99 = false ∧
    (handler apiConfig 0
        ⟨Method.POST, "/orders", none, ⟨JsVal.num 1, some [⟨99, 1, 5⟩]⟩⟩
        seedStore).status = 200 ∧
    (handler apiConfig 0
        ⟨Method.POST, "/orders", none, ⟨JsVal.num 1, some [⟨99, 1, 5⟩]⟩⟩
        seedStore).uploaded.isSome = true ∧
    (storeAfter
        (handler apiConfig 0
          ⟨Method.POST, "/orders", none, ⟨JsVal.num 1, some [⟨99, 1, 5⟩]⟩⟩
          seedStore)
        seedStore).order_items.any
      (fun it =>
        !(productExists
          (storeAfter
            (handler apiConfig 0
              ⟨Method.POST, "/orders", none, ⟨JsVal.num 1, some [⟨99, 1, 5⟩]⟩⟩
              seedStore)
            seedStore) it.product_id)) = true := by decide

/-- C4: the durable blob is overwritten (an S3 `PutObject` happens) exactly
when the request is a `POST /orders` that passes validation and whose
transaction commits; every other request — the read endpoints, run-scoring,
and any rejected or failed order — uploads nothing. -/
theorem c4_upload_iff (cfg : Config) (now : Nat) (req : Request) (s : Store)
    (hb : cfg.bucketConfigured = true) :
    (handler cfg now req s).uploaded.isSome = true ↔
      (req.method = Method.POST ∧ req.path = "/orders" ∧
        req.body.customerId.truthy = true ∧
        ∃ items, req.body.items = some items ∧ items ≠ [] ∧
          txOk (postOrderDb false now req.body.customerId items s).2 = true) := by
  obtain ⟨m, p, cidp, ⟨cid, bitems⟩⟩ := req
  cases m with
  | OPTIONS => simp [handler]
  | GET =>
    constructor
    · intro h
      exfalso
      rw [handler, if_neg (by simp), hb, if_neg (by simp)] at h
      repeat' (split at h)
      all_goals simp_all
    · rintro ⟨h, -⟩
      exact absurd h (by simp)
  | other =>
    constructor
    · intro h
      exfalso
      rw [handler, if_neg (by simp), hb, if_neg (by simp)] at h
      repeat' (split at h)
      all_goals simp_all
    · rintro ⟨h, -⟩
      exact absurd h (by simp)
  | POST =>
    by_cases hp : p = "/orders"
    · subst hp
      by_cases ht : JsVal.truthy cid
      · rcases bitems with _ | ⟨_ | ⟨it, rest⟩⟩
        · simp [handler, hb, ht]
        · simp [handler, hb, ht]
        · rcases hres : postOrderDb false now cid (it :: rest) s with ⟨s2, r⟩
          rcases r with e | oid
          · simp [handler, hb, ht, hres, txOk]
          · simp [handler, hb, ht, hres, txOk]
      · simp [handler, hb, ht]
    · constructor
      · intro h
        exfalso
        rw [handler, if_neg (by simp), hb, if_neg (by simp)] at h
        repeat' (split at h)
        all_goals simp_all
      · rintro ⟨-, hp2, -⟩
        exact absurd hp2 hp

theorem c4_upload_iff_witness :
    apiConfig.bucketConfigured = true ∧
    ((handler apiConfig 0
        ⟨Method.POST, "/orders", none, ⟨JsVal.num 1, some [⟨7, 1, 30⟩]⟩⟩
        seedStore).uploaded.isSome = true ↔
      (Method.POST = Method.POST ∧ "/orders" = "/orders" ∧
        JsVal.truthy (JsVal.num 1) = true ∧
        ∃ items, (some [(⟨7, 1, 30⟩ : Item)] : Option (List Item)) = some items ∧
          items ≠ [] ∧
          txOk (postOrderDb false 0 (JsVal.num 1) items seedStore).2 = true)) :=
  ⟨rfl, c4_upload_iff apiConfig 0
    ⟨Method.POST, "/orders", none, ⟨JsVal.num 1, some [⟨7, 1, 30⟩]⟩⟩ seedStore
    rfl⟩

theorem c2_order_totals_witness :
    ([(⟨7, 2, 30⟩ : Item)] ≠ []) ∧
    (∀ it ∈ [(⟨7, 2, 30⟩ : Item)], 0 < it.quantity ∧ 0 < it.unitPrice) ∧
    ∃ row,
      (postOrderDb false 0 (JsVal.num 1) [⟨7, 2, 30⟩] seedStore).1.orders =
        seedStore.orders ++ [row] ∧
      row.order_subtotal = 60 ∧ row.shipping_fee = 999/100 ∧
      row.tax_amount = 24/5 ∧ row.order_total = 7479/100 := by
  refine ⟨by decide, by decide, ?_⟩
  obtain ⟨s', hok⟩ := postOrderDb_false_ok 0 (JsVal.num 1) [⟨7, 2, 30⟩] seedStore
  obtain ⟨row, h1, h2, h3, h4, h5⟩ :=
    c2_order_totals false 0 (JsVal.num 1) [⟨7, 2, 30⟩] seedStore s'
      seedStore.nextOrderId (by decide) (by decide) hok
  have hsum :
      ([(⟨7, 2, 30⟩ : Item)].map (fun it => it.quantity * it.unitPrice)).sum
        = 60 := by
    norm_num
  rw [hsum] at h2 h3 h4 h5
  have hfee : row.shipping_fee = 999/100 := by
    rw [h3]
    norm_num
  have htax : row.tax_amount = 24/5 := by
    rw [h4]
    simp only [round2, jsRound]
    norm_num
  have htot : row.order_total = 7479/100 := by
    rw [h5, hfee, htax]
    simp only [round2, jsRound]
    norm_num
  refine ⟨row, ?_, by rw [h2], hfee, htax, htot⟩
  rw [hok]
  exact h1

theorem c3_rollback_on_item_failure_witness :
    (∃ it ∈ [(⟨99, 1, 5⟩ : Item)],
      productExists seedStore it.productId = false) ∧
    ((∃ e, postOrderDb true 0 (JsVal.num 1) [⟨99, 1, 5⟩] seedStore =
        (seedStore, Except.error e)) ∧
      (postOrderDb true 0 (JsVal.num 1) [⟨99, 1, 5⟩] seedStore).1 = seedStore) :=
  ⟨by decide,
    c3_rollback_on_item_failure 0 (JsVal.num 1) [⟨99, 1, 5⟩] seedStore
      (by decide)⟩

end ShopDB
